import Mathlib

set_option maxRecDepth 8000

/-!
Verification of the OTA Vehicle Mobile Gateway (VMG) core against its
natural-language specification.  The definitions below are a shallow
embedding of the C++ sources: byte vectors become `List Nat` (each entry
a byte value), stateful objects become explicit state records, socket
and file I/O outcomes become explicit environment records, and C++ code
paths that throw (no normal return) become `Option` results with `none`.
-/

namespace VMG

/-! ## DoIP framing (src/doip/doip_client.cpp) -/

/-- Byte access with the C semantics of reading from a buffer; indices used
below are always within the ranges checked by the code being modelled. -/
def byteAt (l : List Nat) (i : Nat) : Nat := l.getD i 0

/-- Big-endian 16-bit read, as in parseDoIPMessage. -/
def readBE16 (l : List Nat) (off : Nat) : Nat :=
  256 * byteAt l off + byteAt l (off + 1)

/-- Big-endian 32-bit read, as in parseDoIPMessage / receiveRaw. -/
def readBE32 (l : List Nat) (off : Nat) : Nat :=
  16777216 * byteAt l off + 65536 * byteAt l (off + 1) +
    256 * byteAt l (off + 2) + byteAt l (off + 3)

/-- DoIPClient::buildDoIPMessage: 8-byte header (version 0x02, inverse 0xFD,
big-endian payload type, big-endian payload length) followed by the payload. -/
def buildDoIPMessage (ty : Nat) (payload : List Nat) : List Nat :=
  [0x02, 0xFD, ty / 256 % 256, ty % 256,
   payload.length / 16777216 % 256, payload.length / 65536 % 256,
   payload.length / 256 % 256, payload.length % 256] ++ payload

/-- DoIPClient::parseDoIPMessage: checks the 8-byte header (version bytes),
extracts the big-endian payload type and length, checks the message holds the
declared payload, and returns (payload type, payload).  `none` models the
`return false` paths. -/
def parseDoIPMessage (resp : List Nat) : Option (Nat × List Nat) :=
  if resp.length < 8 then none
  else if byteAt resp 0 ≠ 0x02 ∨ byteAt resp 1 ≠ 0xFD then none
  else
    let ty := readBE16 resp 2
    let len := readBE32 resp 4
    if resp.length < 8 + len then none
    else some (ty, (resp.drop 8).take len)

/-- DoIPClient::sendDiagnosticMessage request payload:
source address 0x0200, target address 0x0100, then the service id byte,
then the caller-supplied data bytes. -/
def diagnosticPayload (serviceId : Nat) (data : List Nat) : List Nat :=
  [0x02, 0x00, 0x01, 0x00] ++ serviceId :: data

/-- The UDS service id byte of a full DoIP diagnostic message on the wire:
offset 8 (header) + 2 (SA) + 2 (TA). -/
def udsServiceOf (msg : List Nat) : Nat := byteAt msg 12

/-- The UDS data bytes that follow the service id byte of a full DoIP
diagnostic message on the wire. -/
def udsDataOf (msg : List Nat) : List Nat := msg.drop 13

/-! ## DoIP client state machine (src/doip/doip_client.cpp) -/

inductive DoIPClientState where
  | IDLE
  | CONNECTING
  | CONNECTED
  | ACTIVE
  | ERROR
deriving DecidableEq, Repr

/-- The observable client state: the `state_` member and whether
`socket_fd_` currently holds an open socket (`socket_fd_ >= 0`). -/
structure DoIPClientSt where
  state : DoIPClientState
  socketOpen : Bool
deriving DecidableEq, Repr

/-- DoIPClient::disconnect: closes the socket if open and sets `state_ = IDLE`. -/
def disconnect (_c : DoIPClientSt) : DoIPClientSt :=
  { state := .IDLE, socketOpen := false }

/-- Outcomes of the environment during DoIPClient::connect: socket creation,
address parsing, the TCP connect, the routing-activation send, and the raw
bytes returned by receiveRaw for the routing-activation response
(`none` models a timeout / empty receive). -/
structure ConnectEnv where
  socketCreateOk : Bool
  addrValid : Bool
  tcpConnectOk : Bool
  routingSendOk : Bool
  routingResponse : Option (List Nat)
deriving DecidableEq, Repr

/-- DoIPClient::activateRouting: sends the 0x0005 request, then requires a
well-formed response of payload type 0x0006, payload length at least 9, and
response code byte (payload index 4) equal to 0x10. -/
def activateRouting (env : ConnectEnv) : Bool :=
  if ¬ env.routingSendOk then false
  else
    match env.routingResponse with
    | none => false
    | some resp =>
      match parseDoIPMessage resp with
      | none => false
      | some (ty, payload) =>
        if ty ≠ 0x0006 then false
        else if payload.length < 9 then false
        else decide (byteAt payload 4 = 0x10)

/-- DoIPClient::connect, returning (result, post-state).  Mirrors the code:
already-ACTIVE returns true immediately; otherwise disconnect, create the
socket, parse the address, TCP-connect (failures close the socket and set
ERROR), then activateRouting; on routing failure the code calls
disconnect(), on success it sets ACTIVE. -/
def connect (c : DoIPClientSt) (env : ConnectEnv) : Bool × DoIPClientSt :=
  if c.state = .ACTIVE then (true, c)
  else
    let c1 := disconnect c
    if ¬ env.socketCreateOk then (false, { c1 with state := .ERROR })
    else if ¬ env.addrValid then (false, { state := .ERROR, socketOpen := false })
    else if ¬ env.tcpConnectOk then (false, { state := .ERROR, socketOpen := false })
    else if ¬ activateRouting env then (false, disconnect { state := .CONNECTED, socketOpen := true })
    else (true, { state := .ACTIVE, socketOpen := true })

/-- Outcomes of the environment during DoIPClient::sendDiagnosticMessage:
whether sendRaw succeeds and the raw bytes receiveRaw returns
(`none` models a timeout, poll error, or connection closed). -/
structure DiagEnv where
  sendOk : Bool
  response : Option (List Nat)
deriving DecidableEq, Repr

/-- DoIPClient::sendDiagnosticMessage, returning (UDS response bytes,
post-state).  Mirrors the code: requires ACTIVE; builds the 0x8001 message;
every failure path (send failure, no response, malformed response, wrong
payload type, payload shorter than 5) returns an empty vector; the client
record is returned unchanged on every path because the code never updates
`state_` or closes `socket_fd_` inside this function. -/
def sendDiagnosticMessage (c : DoIPClientSt) (env : DiagEnv)
    (serviceId : Nat) (data : List Nat) : List Nat × DoIPClientSt :=
  if c.state ≠ .ACTIVE then ([], c)
  else
    let _request := buildDoIPMessage 0x8001 (diagnosticPayload serviceId data)
    if ¬ env.sendOk then ([], c)
    else
      match env.response with
      | none => ([], c)
      | some resp =>
        match parseDoIPMessage resp with
        | none => ([], c)
        | some (ty, payload) =>
          if ty ≠ 0x8001 then ([], c)
          else if payload.length < 5 then ([], c)
          else (payload.drop 4, c)

/-! ## Report-request guards (src/doip/doip_client.cpp, requestVCIReport and
requestReadinessReport) -/

/-- The acceptance test requestVCIReport applies to the routine-control UDS
response before reading the ECU count: non-empty, first byte 0x71, and not
shorter than 5 bytes. -/
def vciReportAccepts (resp : List Nat) : Bool :=
  if resp.isEmpty then false
  else if byteAt resp 0 ≠ 0x71 ∨ resp.length < 5 then false
  else true

/-- The identical acceptance test in requestReadinessReport. -/
def readinessReportAccepts (resp : List Nat) : Bool :=
  if resp.isEmpty then false
  else if byteAt resp 0 ≠ 0x71 ∨ resp.length < 5 then false
  else true

/-- Both functions then read `response[5]` as the ECU count. -/
def reportEcuCountIndex : Nat := 5

/-! ## UDS block transfer (src/ota/ota_manager_vehicle.cpp,
OTAManager::transferZonePackageViaUDS) -/

/-- The 0x34 request payload the orchestrator builds: the byte 0x34 followed
by the 4-byte big-endian total size (the size is first truncated to uint32). -/
def requestDownloadData (fileSize : Nat) : List Nat :=
  [0x34,
   fileSize % 4294967296 / 16777216 % 256,
   fileSize % 4294967296 / 65536 % 256,
   fileSize % 4294967296 / 256 % 256,
   fileSize % 4294967296 % 256]

/-- The 0x36 loop of transferZonePackageViaUDS as a pure function: starting
from counter `c` (the code starts at 1), it takes at most 1024 bytes per
block and steps the counter by `(c + 1) % 256`.  The first argument is fuel
for structural recursion; every iteration consumes at least one data byte,
so `data.length` is always enough fuel. -/
def transferBlocksAux : Nat → List Nat → Nat → List (Nat × List Nat)
  | 0, _, _ => []
  | fuel + 1, d, c =>
    if d = [] then []
    else (c, d.take 1024) :: transferBlocksAux fuel (d.drop 1024) ((c + 1) % 256)

/-- The sequence of (block-sequence counter, chunk) pairs produced by the
0x36 loop for the given zone data, starting at counter `c`. -/
def transferBlocks (d : List Nat) (c : Nat) : List (Nat × List Nat) :=
  transferBlocksAux d.length d c

/-- The sequence of full DoIP diagnostic messages transferZonePackageViaUDS
sends on the success path: the 0x34 request, one 0x36 request per block, and
the 0x37 request.  Each `data` argument handed to sendDiagnosticMessage is
exactly the vector the code builds (which itself starts with the service id
byte), and sendDiagnosticMessage prepends the service id again. -/
def transferWireMessages (zoneData : List Nat) : List (List Nat) :=
  buildDoIPMessage 0x8001 (diagnosticPayload 0x34 (requestDownloadData zoneData.length))
    :: ((transferBlocks zoneData 1).map fun b =>
          buildDoIPMessage 0x8001 (diagnosticPayload 0x36 (0x36 :: b.1 :: b.2)))
    ++ [buildDoIPMessage 0x8001 (diagnosticPayload 0x37 [0x37])]

/-! ## CRC32 (zlib, IEEE 802.3 reflected polynomial 0xEDB88320), used by
VehiclePackageParser::calculateCRC32 and ZonePackageParser::calculateCRC32 -/

/-- One shift round of the reflected CRC32. -/
def crc32Round (c : Nat) : Nat :=
  if c % 2 = 1 then Nat.xor (c / 2) 0xEDB88320 else c / 2

/-- Absorb one byte into the running CRC32 state. -/
def crc32Byte (c b : Nat) : Nat :=
  crc32Round^[8] (Nat.xor c b)

/-- zlib crc32 of a byte vector: initial state 0xFFFFFFFF, absorb each byte,
final complement. -/
def crc32 (data : List Nat) : Nat :=
  Nat.xor (data.foldl crc32Byte 0xFFFFFFFF) 0xFFFFFFFF

/-- Reference values of the zlib CRC32 on tiny inputs, pinning the embedding
to the IEEE 802.3 polynomial. -/
theorem crc32_reference_values :
    crc32 [] = 0 ∧ crc32 [0x41] = 0xD3D99E8B ∧ crc32 [0x41, 0x42] = 0x30694C07 := by
  decide

/-! ## Fixed-width text fields (std::string(ptr, n) then
erase(find(0))) in both parsers -/

/-- The trim idiom `s.erase(s.find(0))` applied to a fixed-width field:
if a zero byte exists the prefix before the first zero is returned; if no
zero byte exists, `find` returns npos and `erase(npos)` throws
std::out_of_range, modelled as `none` (no normal return). -/
def trimAtNul : List Nat → Option (List Nat)
  | [] => none
  | b :: rest => if b = 0 then some [] else (trimAtNul rest).map (b :: ·)

/-- VehiclePackageParser::parse, zone_id: std::string(zone_ref.zone_id, 16)
then erase at the first zero byte. -/
def zoneIdString (raw : List Nat) : Option (List Nat) := trimAtNul (raw.take 16)

/-- VehiclePackageParser::verifyVehicleTarget, VIN: std::string(vin, 17). -/
def vinString (raw : List Nat) : Option (List Nat) := trimAtNul (raw.take 17)

/-- VehiclePackageParser::verifyVehicleTarget, model: std::string(model, 32). -/
def modelString (raw : List Nat) : Option (List Nat) := trimAtNul (raw.take 32)

/-- ZonePackageParser::getECUList, ecu_id: std::string(ecu_id, 16). -/
def ecuIdString (raw : List Nat) : Option (List Nat) := trimAtNul (raw.take 16)

/-! ## Vehicle Package parser (src/package/vehicle_package_parser.cpp with
the packed layout of include/vehicle_package.hpp)

The packed struct VehiclePackageMetadata occupies
12 (magic, version, total_size) + 64 (vin 17, model 32, year 2, region 1,
reserved 12) + 48 (master version 4, string 32, reserved 12) + 16 (counts) +
16 (vehicle_crc32 4, metadata_crc32 4, reserved 8) + 512 (16 zone refs of
32 bytes) + 8192 (256 ecu refs of 32 bytes) + 3072 (reserved) = 11932 bytes;
integers inside are little-endian (platform layout, per spec section 9). -/

/-- Little-endian 32-bit read of an on-disk header field. -/
def readLE32 (f : List Nat) (off : Nat) : Nat :=
  byteAt f off + 256 * byteAt f (off + 1) + 65536 * byteAt f (off + 2) +
    16777216 * byteAt f (off + 3)

/-- sizeof(VehiclePackageMetadata) for the packed struct. -/
def vppHeaderSize : Nat := 11932

/-- Field offsets inside the packed header. -/
def vppTotalSize (f : List Nat) : Nat := readLE32 f 8

/-- zone_count is the single byte at offset 124. -/
def vppZoneCount (f : List Nat) : Nat := byteAt f 124

/-- vehicle_crc32 is the little-endian 32-bit field at offset 140. -/
def vppVehicleCrc32 (f : List Nat) : Nat := readLE32 f 140

/-- The 16-byte zone_id field of the i-th ZoneReference
(zone_refs start at offset 156, each reference is 32 bytes). -/
def vppZoneIdField (f : List Nat) (i : Nat) : List Nat :=
  (f.drop (156 + 32 * i)).take 16

/-- VehiclePackageParser::parse on the file bytes: reading the header fails
if the file is shorter than the struct; then the magic 0x5650504B is
checked; then for each of the zone_count ZoneReferences the zone_id is
trimmed with the erase(find(0)) idiom, which throws (`none`) when a zone_id
holds no zero byte.  `some b` models a normal return of b. -/
def vppParse (f : List Nat) : Option Bool :=
  if f.length < vppHeaderSize then some false
  else if readLE32 f 0 ≠ 0x5650504B then some false
  else if (List.range (vppZoneCount f)).all
            (fun i => (zoneIdString (vppZoneIdField f i)).isSome) then some true
  else none

/-- VehiclePackageParser::verify after a successful parse: it seeks to
sizeof(VehiclePackageMetadata), resizes a zero-filled buffer to
total_size - sizeof(header) (when total_size is below the header size this
size_t subtraction wraps and the resize throws, modelled as `none`), reads
as many of those bytes as the file holds (the rest of the buffer stays
zero), computes CRC32 of the whole buffer and compares it with the
vehicle_crc32 header field. -/
def vppVerify (f : List Nat) : Option Bool :=
  if vppTotalSize f < vppHeaderSize then none
  else
    some (decide (crc32
      (((f.drop vppHeaderSize) ++ List.replicate (vppTotalSize f - vppHeaderSize) 0).take
        (vppTotalSize f - vppHeaderSize)) = vppVehicleCrc32 f))

/-! ## Partition manager (src/ota/partition_manager.cpp) -/

inductive PartitionId where
  | A
  | B
  | UNKNOWN
deriving DecidableEq, Repr

inductive PartitionState where
  | UNKNOWN
  | EMPTY
  | READY
  | ACTIVE
  | UPDATING
  | ERROR
  | ROLLBACK
deriving DecidableEq, Repr

/-- The in-memory BootStatus record (magic and timestamp omitted: no
modelled operation reads them back). -/
structure BootStatus where
  bootTarget : PartitionId
  stateA : PartitionState
  stateB : PartitionState
  bootCount : Nat
deriving DecidableEq, Repr

/-- The default boot status PartitionManager::initialize writes when no
valid status file exists: target A, A ACTIVE, B EMPTY, boot_count 0. -/
def defaultBootStatus : BootStatus :=
  { bootTarget := .A, stateA := .ACTIVE, stateB := .EMPTY, bootCount := 0 }

/-- PartitionManager::setPartitionState (the UNKNOWN branch returns false
without touching the record). -/
def setPartitionState (bs : BootStatus) (p : PartitionId) (s : PartitionState) : BootStatus :=
  match p with
  | .A => { bs with stateA := s }
  | .B => { bs with stateB := s }
  | .UNKNOWN => bs

/-- PartitionManager::switchBootTarget: sets the target and resets
boot_count to 0, then persists. -/
def switchBootTarget (bs : BootStatus) (t : PartitionId) : BootStatus :=
  { bs with bootTarget := t, bootCount := 0 }

/-- PartitionManager::incrementBootCount: boot_count is a uint32. -/
def incrementBootCount (bs : BootStatus) : BootStatus :=
  { bs with bootCount := (bs.bootCount + 1) % 4294967296 }

/-- PartitionManager::isRollbackNeeded: boot_count >= 3. -/
def isRollbackNeeded (bs : BootStatus) : Bool :=
  decide (3 ≤ bs.bootCount)

/-- PartitionManager::performRollback: marks the current boot target
ROLLBACK, flips boot_target to the other partition, resets boot_count. -/
def performRollback (bs : BootStatus) : BootStatus :=
  let current := bs.bootTarget
  let previous : PartitionId := if current = .A then .B else .A
  let bs1 := setPartitionState bs current .ROLLBACK
  { bs1 with bootTarget := previous, bootCount := 0 }

/-- The boot status after the scenario of spec section 8 test 5: start from
the default status (A active), install to the standby partition B
(installPackage sets B UPDATING and then READY), switch the boot target to
B, and attempt three boots. -/
def rollbackScenarioStatus : BootStatus :=
  let bs1 := setPartitionState defaultBootStatus .B .UPDATING
  let bs2 := setPartitionState bs1 .B .READY
  let bs3 := switchBootTarget bs2 .B
  incrementBootCount (incrementBootCount (incrementBootCount bs3))

/-! ## OTA manager state and cancellation (src/ota/ota_manager.cpp) -/

inductive OTAState where
  | IDLE
  | DOWNLOADING
  | VERIFYING
  | INSTALLING
  | READY
  | ERROR
  | COMPLETED
deriving DecidableEq, Repr

/-- The OTA manager fields cancelOTA touches: `current_state_`,
`progress_.state` and `progress_.error_message`. -/
structure OTAMgrSt where
  currentState : OTAState
  progressState : OTAState
  errorMessage : String
deriving DecidableEq, Repr

/-- OTAManager::getState. -/
def getState (m : OTAMgrSt) : OTAState := m.currentState

/-- OTAManager::isOTAInProgress: the state is none of IDLE, COMPLETED,
ERROR. -/
def isOTAInProgress (m : OTAMgrSt) : Bool :=
  decide (m.currentState ≠ .IDLE ∧ m.currentState ≠ .COMPLETED ∧ m.currentState ≠ .ERROR)

/-- OTAManager::reportError: sets `current_state_` and `progress_.state`
to ERROR and records the message (the MQTT report it then emits carries no
state). -/
def reportError (m : OTAMgrSt) (msg : String) : OTAMgrSt :=
  { m with currentState := .ERROR, progressState := .ERROR, errorMessage := msg }

/-- OTAManager::cancelOTA: refuses when no OTA is in progress; otherwise
calls reportError with the message "OTA cancelled by user" and then
overwrites `current_state_` with IDLE before returning true. -/
def cancelOTA (m : OTAMgrSt) : Bool × OTAMgrSt :=
  if ¬ isOTAInProgress m then (false, m)
  else (true, { reportError m "OTA cancelled by user" with currentState := .IDLE })

/-! ## Concrete Vehicle Package files for the parser claims -/

/-- An 11932-byte Vehicle Package header with valid magic, the given
total_size and vehicle_crc32 fields (each 4 little-endian bytes), and every
other byte zero; in particular zone_count (offset 124) is 0.  Offsets:
magic 0-3, version 4-7, total_size 8-11, zeros 12-139, vehicle_crc32
140-143, zeros 144-11931. -/
def mkVppHeader (ts crc : List Nat) : List Nat :=
  [0x4B, 0x50, 0x50, 0x56] ++ List.replicate 4 0 ++ ts ++
    List.replicate 128 0 ++ crc ++ List.replicate 11788 0

/-- An 11934-byte Vehicle Package file: a valid header whose total_size
field is 11933 (one byte less than the file length) and whose vehicle_crc32
field is crc32 of the single byte 0x41, followed by the two payload bytes
0x41 0x42. -/
def c3File : List Nat :=
  mkVppHeader [0x9D, 0x2E, 0, 0] [0x8B, 0x9E, 0xD9, 0xD3] ++ [0x41, 0x42]

/-- Like c3File but with total_size 11934 equal to the file length and
vehicle_crc32 equal to crc32 of the full payload 0x41 0x42. -/
def c3WitnessFile : List Nat :=
  mkVppHeader [0x9E, 0x2E, 0, 0] [0x07, 0x4C, 0x69, 0x30] ++ [0x41, 0x42]

/-- A header-only Vehicle Package file (11932 bytes): valid magic,
total_size 11932, zone_count 0 (byte 124), vehicle_crc32 0 = crc32 of the
empty payload. -/
def c8File : List Nat :=
  mkVppHeader [0x9C, 0x2E, 0, 0] [0, 0, 0, 0]

/-- c8File with the zone_count byte (offset 124) set to 2 instead of 0;
all fields vppVerify reads are unchanged. -/
def c8FileZoneCount2 : List Nat :=
  [0x4B, 0x50, 0x50, 0x56] ++ [0, 0, 0, 0] ++ [0x9C, 0x2E, 0, 0] ++
    List.replicate 112 0 ++ [2] ++ List.replicate 11807 0

/-! ## Helper lemmas -/

theorem byteAt_replicate_zero (n i : Nat) : byteAt (List.replicate n 0) i = 0 := by
  rw [byteAt, List.getD_eq_getElem?_getD, List.getElem?_replicate]
  by_cases h : i < n <;> simp [h]

theorem mkVppHeader_length (ts crc : List Nat) (h1 : ts.length = 4)
    (h2 : crc.length = 4) : (mkVppHeader ts crc).length = 11932 := by
  simp only [mkVppHeader, List.length_append, List.length_replicate, List.length_cons,
    List.length_nil, h1, h2]

/-- Reading any byte of a synthetic header: the magic, the total_size field
(offset 8), the vehicle_crc32 field (offset 140), zero everywhere else. -/
theorem byteAt_mkVppHeader (ts crc : List Nat) (h1 : ts.length = 4)
    (h2 : crc.length = 4) (i : Nat) :
    byteAt (mkVppHeader ts crc) i =
      if i < 4 then byteAt [0x4B, 0x50, 0x50, 0x56] i
      else if i < 8 then 0
      else if i < 12 then byteAt ts (i - 4 - 4)
      else if i < 140 then 0
      else if i < 144 then byteAt crc (i - 4 - 4 - 4 - 128)
      else 0 := by
  rw [mkVppHeader]
  simp only [List.append_assoc]
  by_cases c1 : i < 4
  · rw [byteAt, List.getD_append _ _ _ _ (by simpa using c1)]
    simp [c1, byteAt]
  · rw [byteAt, List.getD_append_right _ _ _ _ (by simpa using Nat.le_of_not_lt c1)]
    simp only [List.length_cons, List.length_nil]
    by_cases c2 : i < 8
    · rw [List.getD_append _ _ _ _ (by simp; omega)]
      simp only [c1, if_false, c2, if_true]
      exact byteAt_replicate_zero 4 (i - 4)
    · rw [List.getD_append_right _ _ _ _ (by simp; omega), List.length_replicate]
      by_cases c3 : i < 12
      · rw [List.getD_append _ _ _ _ (by omega)]
        simp [c1, c2, c3, byteAt]
      · rw [List.getD_append_right _ _ _ _ (by omega), h1]
        by_cases c4 : i < 140
        · rw [List.getD_append _ _ _ _ (by simp; omega)]
          simp only [c1, if_false, c2, if_false, c3, if_false, c4, if_true]
          exact byteAt_replicate_zero 128 (i - 4 - 4 - 4)
        · rw [List.getD_append_right _ _ _ _ (by simp; omega), List.length_replicate]
          by_cases c5 : i < 144
          · rw [List.getD_append _ _ _ _ (by omega)]
            simp [c1, c2, c3, c4, c5, byteAt]
          · rw [List.getD_append_right _ _ _ _ (by omega), h2]
            simp only [c1, if_false, c2, if_false, c3, if_false, c4, if_false, c5, if_false]
            exact byteAt_replicate_zero 11788 _

theorem byteAt_header_pay (ts crc pay : List Nat) (h1 : ts.length = 4)
    (h2 : crc.length = 4) (i : Nat) (hi : i < 11932) :
    byteAt (mkVppHeader ts crc ++ pay) i = byteAt (mkVppHeader ts crc) i := by
  rw [byteAt, byteAt, List.getD_append]
  rw [mkVppHeader_length ts crc h1 h2]
  exact hi

theorem vppTotalSize_mk (ts crc pay : List Nat) (h1 : ts.length = 4) (h2 : crc.length = 4) :
    vppTotalSize (mkVppHeader ts crc ++ pay) =
      byteAt ts 0 + 256 * byteAt ts 1 + 65536 * byteAt ts 2 + 16777216 * byteAt ts 3 := by
  rw [vppTotalSize, readLE32]
  rw [byteAt_header_pay ts crc pay h1 h2 8 (by omega),
      byteAt_header_pay ts crc pay h1 h2 9 (by omega),
      byteAt_header_pay ts crc pay h1 h2 10 (by omega),
      byteAt_header_pay ts crc pay h1 h2 11 (by omega)]
  rw [byteAt_mkVppHeader ts crc h1 h2 8, byteAt_mkVppHeader ts crc h1 h2 9,
      byteAt_mkVppHeader ts crc h1 h2 10, byteAt_mkVppHeader ts crc h1 h2 11]
  norm_num

theorem vppVehicleCrc32_mk (ts crc pay : List Nat) (h1 : ts.length = 4) (h2 : crc.length = 4) :
    vppVehicleCrc32 (mkVppHeader ts crc ++ pay) =
      byteAt crc 0 + 256 * byteAt crc 1 + 65536 * byteAt crc 2 + 16777216 * byteAt crc 3 := by
  rw [vppVehicleCrc32, readLE32]
  rw [byteAt_header_pay ts crc pay h1 h2 140 (by omega),
      byteAt_header_pay ts crc pay h1 h2 141 (by omega),
      byteAt_header_pay ts crc pay h1 h2 142 (by omega),
      byteAt_header_pay ts crc pay h1 h2 143 (by omega)]
  rw [byteAt_mkVppHeader ts crc h1 h2 140, byteAt_mkVppHeader ts crc h1 h2 141,
      byteAt_mkVppHeader ts crc h1 h2 142, byteAt_mkVppHeader ts crc h1 h2 143]
  norm_num

theorem vppZoneCount_mk (ts crc pay : List Nat) (h1 : ts.length = 4) (h2 : crc.length = 4) :
    vppZoneCount (mkVppHeader ts crc ++ pay) = 0 := by
  rw [vppZoneCount, byteAt_header_pay ts crc pay h1 h2 124 (by omega),
      byteAt_mkVppHeader ts crc h1 h2 124]
  norm_num

theorem vppMagic_mk (ts crc pay : List Nat) (h1 : ts.length = 4) (h2 : crc.length = 4) :
    readLE32 (mkVppHeader ts crc ++ pay) 0 = 0x5650504B := by
  rw [readLE32]
  rw [byteAt_header_pay ts crc pay h1 h2 0 (by omega),
      byteAt_header_pay ts crc pay h1 h2 1 (by omega),
      byteAt_header_pay ts crc pay h1 h2 2 (by omega),
      byteAt_header_pay ts crc pay h1 h2 3 (by omega)]
  rw [byteAt_mkVppHeader ts crc h1 h2 0, byteAt_mkVppHeader ts crc h1 h2 1,
      byteAt_mkVppHeader ts crc h1 h2 2, byteAt_mkVppHeader ts crc h1 h2 3]
  norm_num [byteAt]

theorem vppLength_mk (ts crc pay : List Nat) (h1 : ts.length = 4) (h2 : crc.length = 4) :
    (mkVppHeader ts crc ++ pay).length = 11932 + pay.length := by
  rw [List.length_append, mkVppHeader_length ts crc h1 h2]

theorem vppDrop_mk (ts crc pay : List Nat) (h1 : ts.length = 4) (h2 : crc.length = 4) :
    (mkVppHeader ts crc ++ pay).drop vppHeaderSize = pay := by
  rw [vppHeaderSize]
  exact List.drop_left' (mkVppHeader_length ts crc h1 h2)

theorem vppParse_mk (ts crc pay : List Nat) (h1 : ts.length = 4) (h2 : crc.length = 4) :
    vppParse (mkVppHeader ts crc ++ pay) = some true := by
  rw [vppParse]
  rw [vppLength_mk ts crc pay h1 h2, vppMagic_mk ts crc pay h1 h2,
      vppZoneCount_mk ts crc pay h1 h2, vppHeaderSize]
  norm_num

/-- The block-sequence counters of the 0x36 loop: starting at any counter
below 256, the counters are (c + k) % 256 for k ranging over the block
count, the block count being the number of 1024-byte chunks rounded up. -/
theorem transferBlocksAux_map_fst (fuel : Nat) : ∀ (d : List Nat) (c : Nat),
    d.length ≤ fuel → c < 256 →
    (transferBlocksAux fuel d c).map Prod.fst =
      (List.range ((d.length + 1023) / 1024)).map (fun k => (c + k) % 256) := by
  induction fuel with
  | zero =>
    intro d c hf hc
    have hd : d = [] := List.eq_nil_of_length_eq_zero (Nat.le_zero.mp hf)
    subst hd
    simp [transferBlocksAux]
  | succ n ih =>
    intro d c hf hc
    rw [transferBlocksAux]
    by_cases hd : d = []
    · subst hd
      simp
    · rw [if_neg hd]
      have hpos : 0 < d.length := List.length_pos.mpr hd
      have hm : (d.length + 1023) / 1024 = (d.length - 1024 + 1023) / 1024 + 1 := by omega
      rw [List.map_cons, ih (d.drop 1024) ((c + 1) % 256)
            (by rw [List.length_drop]; omega) (Nat.mod_lt _ (by norm_num)),
          List.length_drop, hm, List.range_succ_eq_map, List.map_cons, List.map_map]
      refine congrArg₂ _ (by rw [Nat.add_zero, Nat.mod_eq_of_lt hc]) ?_
      refine List.map_congr_left (fun a _ => ?_)
      show ((c + 1) % 256 + a) % 256 = (c + Nat.succ a) % 256
      rw [Nat.mod_add_mod, Nat.succ_eq_add_one]
      congr 1
      omega

theorem transferBlocks_map_fst (d : List Nat) :
    (transferBlocks d 1).map Prod.fst =
      (List.range ((d.length + 1023) / 1024)).map (fun k => (1 + k) % 256) :=
  transferBlocksAux_map_fst d.length d 1 (Nat.le_refl _) (by norm_num)

/-- The UDS service id byte of every diagnostic message built by the client
is the service id passed to sendDiagnosticMessage. -/
theorem udsServiceOf_build (ty sid : Nat) (data : List Nat) :
    udsServiceOf (buildDoIPMessage ty (diagnosticPayload sid data)) = sid := rfl

/-- The trim idiom has no normal return on a field without a zero byte. -/
theorem trimAtNul_eq_none (l : List Nat) (h : ∀ b ∈ l, b ≠ 0) : trimAtNul l = none := by
  induction l with
  | nil => rfl
  | cons b rest ih =>
    rw [trimAtNul, if_neg (h b (List.mem_cons_self b rest))]
    rw [ih (fun x hx => h x (List.mem_cons_of_mem b hx))]
    rfl

/-! ## Claim theorems -/

/-- Claim C1: for zone data of L > 0 bytes the 0x36 loop produces
ceil(L/1024) blocks; the k-th block (0-based k) carries the counter
(1 + k) % 256, i.e. counters start at 1 and wrap to 0 after 255; the wire
sequence contains exactly ceil(L/1024) messages with service id 0x36; and a
260 KiB transfer (266240 bytes) carries the counter sequence
1, 2, ..., 255, 0, 1, 2, 3, 4. -/
theorem c1_block_sequence_counters (d : List Nat) (h : d ≠ []) :
    (transferBlocks d 1).length = (d.length + 1023) / 1024 ∧
    (transferBlocks d 1).map Prod.fst
      = (List.range ((d.length + 1023) / 1024)).map (fun k => (1 + k) % 256) ∧
    (transferWireMessages d).countP (fun m => udsServiceOf m == 0x36)
      = (d.length + 1023) / 1024 ∧
    (d.length = 266240 →
      (transferBlocks d 1).map Prod.fst
        = (List.range 255).map (fun k => k + 1) ++ [0, 1, 2, 3, 4]) := by
  have hfst := transferBlocks_map_fst d
  have hlen : (transferBlocks d 1).length = (d.length + 1023) / 1024 := by
    have h2 := congrArg List.length hfst
    simpa using h2
  refine ⟨hlen, hfst, ?_, ?_⟩
  · simp only [transferWireMessages, List.countP_cons, List.countP_append, List.countP_map,
      Function.comp_def, udsServiceOf_build, List.countP_singleton]
    norm_num [List.countP_true, hlen]
  · intro h266
    rw [hfst, h266]
    decide

theorem c1_block_sequence_counters_witness :
    (([0xAB] : List Nat) ≠ []) ∧
    ((transferBlocks [0xAB] 1).length = (([0xAB] : List Nat).length + 1023) / 1024 ∧
     (transferBlocks [0xAB] 1).map Prod.fst
       = (List.range ((([0xAB] : List Nat).length + 1023) / 1024)).map (fun k => (1 + k) % 256) ∧
     (transferWireMessages [0xAB]).countP (fun m => udsServiceOf m == 0x36)
       = (([0xAB] : List Nat).length + 1023) / 1024 ∧
     (([0xAB] : List Nat).length = 266240 →
       (transferBlocks [0xAB] 1).map Prod.fst
         = (List.range 255).map (fun k => k + 1) ++ [0, 1, 2, 3, 4])) :=
  ⟨by decide, c1_block_sequence_counters [0xAB] (by decide)⟩

/-- Claim C2 (code bug): on the wire the UDS data bytes following the
service id are not, as claimed, just the size / counter-and-chunk / empty:
transferZonePackageViaUDS already places the service id at the front of the
data it hands to sendDiagnosticMessage, and sendDiagnosticMessage inserts
the service id again, so the byte after the service id duplicates it.
Evaluated at a one-byte zone package 0xAB. -/
theorem c2_wire_sid_duplicated :
    udsDataOf ((transferWireMessages [0xAB]).getD 0 []) = [0x34, 0, 0, 0, 1] ∧
    ([0x34, 0, 0, 0, 1] : List Nat) ≠ [0, 0, 0, 1] ∧
    udsDataOf ((transferWireMessages [0xAB]).getD 1 []) = [0x36, 1, 0xAB] ∧
    ([0x36, 1, 0xAB] : List Nat) ≠ [1, 0xAB] ∧
    udsDataOf ((transferWireMessages [0xAB]).getD 2 []) = [0x37] ∧
    ([0x37] : List Nat) ≠ [] := by
  decide

/-- Claim C4: from the default boot status (A active), after installing to
B and switching the boot target to B, three boot-count increments make
rollback needed, and performRollback leaves boot target A, partition B in
state ROLLBACK, and boot count 0. -/
theorem c4_rollback_after_three_boots :
    isRollbackNeeded rollbackScenarioStatus = true ∧
    (performRollback rollbackScenarioStatus).bootTarget = PartitionId.A ∧
    (performRollback rollbackScenarioStatus).stateB = PartitionState.ROLLBACK ∧
    (performRollback rollbackScenarioStatus).bootCount = 0 := by
  decide

/-- Claim C9: the guards of requestVCIReport and requestReadinessReport
accept the five-byte routine-control response 0x71, sub-function, routine
id (two bytes), status, yet both then read index 5, which is out of bounds
for that accepted response. -/
theorem c9_length_guard_permits_oob_index :
    vciReportAccepts [0x71, 0x01, 0xF0, 0x02, 0x00] = true ∧
    readinessReportAccepts [0x71, 0x01, 0xF0, 0x04, 0x00] = true ∧
    ¬ reportEcuCountIndex < ([0x71, 0x01, 0xF0, 0x02, 0x00] : List Nat).length ∧
    ¬ reportEcuCountIndex < ([0x71, 0x01, 0xF0, 0x04, 0x00] : List Nat).length := by
  decide

/-- Claim C10: every fixed-width text field (zone_id in parse, VIN and
model in verifyVehicleTarget, ecu_id in getECUList) is trimmed with
erase(find(0)); on a field value with no zero byte, find yields npos and
the erase throws, so none of the four sites returns normally. -/
theorem c10_trim_without_nul_check (raw : List Nat) (h : ∀ b ∈ raw, b ≠ 0) :
    zoneIdString raw = none ∧ vinString raw = none ∧
    modelString raw = none ∧ ecuIdString raw = none := by
  have key : ∀ n, trimAtNul (raw.take n) = none := fun n =>
    trimAtNul_eq_none _ (fun b hb => h b ((List.take_sublist n raw).mem hb))
  exact ⟨key 16, key 17, key 32, key 16⟩

theorem c10_trim_without_nul_check_witness :
    (∀ b ∈ List.replicate 16 (0x41 : Nat), b ≠ 0) ∧
    (zoneIdString (List.replicate 16 0x41) = none ∧
     vinString (List.replicate 16 0x41) = none ∧
     modelString (List.replicate 16 0x41) = none ∧
     ecuIdString (List.replicate 16 0x41) = none) :=
  ⟨by decide, c10_trim_without_nul_check (List.replicate 16 0x41) (by decide)⟩

/-- Claim C3 counterexample: a file on which parse succeeds, whose declared
total_size (11933) is one byte short of the file length (11934), whose
vehicle_crc32 matches the CRC32 of the single declared payload byte: verify
succeeds although the CRC32 of all file bytes after the header differs from
the stored vehicle_crc32 — so verify success is not equivalent to the
claimed CRC equation. -/
theorem c3_counterexample :
    vppParse c3File = some true ∧
    vppVerify c3File = some true ∧
    crc32 (c3File.drop vppHeaderSize) ≠ vppVehicleCrc32 c3File := by
  refine ⟨?_, ?_, ?_⟩
  · rw [c3File]
    exact vppParse_mk _ _ _ rfl rfl
  · rw [c3File, vppVerify,
        vppTotalSize_mk [0x9D, 0x2E, 0, 0] [0x8B, 0x9E, 0xD9, 0xD3] [0x41, 0x42] rfl rfl,
        vppVehicleCrc32_mk [0x9D, 0x2E, 0, 0] [0x8B, 0x9E, 0xD9, 0xD3] [0x41, 0x42] rfl rfl,
        vppDrop_mk [0x9D, 0x2E, 0, 0] [0x8B, 0x9E, 0xD9, 0xD3] [0x41, 0x42] rfl rfl]
    norm_num [byteAt, vppHeaderSize]
    decide
  · rw [c3File,
        vppDrop_mk [0x9D, 0x2E, 0, 0] [0x8B, 0x9E, 0xD9, 0xD3] [0x41, 0x42] rfl rfl,
        vppVehicleCrc32_mk [0x9D, 0x2E, 0, 0] [0x8B, 0x9E, 0xD9, 0xD3] [0x41, 0x42] rfl rfl]
    norm_num [byteAt]
    decide

/-- Claim C3, amended: after a successful parse, and for total_size between
the header size and the file length, verify succeeds iff the CRC32 of the
bytes from the header end up to the declared total_size equals the stored
vehicle_crc32; when total_size equals the file length this region is
exactly all file bytes after the header (the header being the 11932 bytes
of the packed metadata struct, not 12 KiB). -/
theorem c3_verify_crc_of_declared_region (f : List Nat)
    (hp : vppParse f = some true)
    (h1 : vppHeaderSize ≤ vppTotalSize f) (h2 : vppTotalSize f ≤ f.length) :
    (vppVerify f = some true ↔
      crc32 ((f.drop vppHeaderSize).take (vppTotalSize f - vppHeaderSize))
        = vppVehicleCrc32 f) ∧
    (vppTotalSize f = f.length →
      (vppVerify f = some true ↔
        crc32 (f.drop vppHeaderSize) = vppVehicleCrc32 f)) := by
  have hreg : ((f.drop vppHeaderSize) ++
        List.replicate (vppTotalSize f - vppHeaderSize) 0).take
        (vppTotalSize f - vppHeaderSize)
      = (f.drop vppHeaderSize).take (vppTotalSize f - vppHeaderSize) :=
    List.take_append_of_le_length (by rw [List.length_drop]; omega)
  have hv : vppVerify f
      = some (decide (crc32
          ((f.drop vppHeaderSize).take (vppTotalSize f - vppHeaderSize))
            = vppVehicleCrc32 f)) := by
    rw [vppVerify, if_neg (by omega), hreg]
  constructor
  · rw [hv]
    simp only [Option.some.injEq, decide_eq_true_eq]
  · intro he
    have hn : vppTotalSize f - vppHeaderSize = (f.drop vppHeaderSize).length := by
      rw [List.length_drop]
      omega
    rw [hv, hn, List.take_length]
    simp only [Option.some.injEq, decide_eq_true_eq]

theorem c3_verify_crc_of_declared_region_witness :
    vppParse c3WitnessFile = some true ∧
    vppHeaderSize ≤ vppTotalSize c3WitnessFile ∧
    vppTotalSize c3WitnessFile ≤ c3WitnessFile.length ∧
    ((vppVerify c3WitnessFile = some true ↔
      crc32 ((c3WitnessFile.drop vppHeaderSize).take
        (vppTotalSize c3WitnessFile - vppHeaderSize)) = vppVehicleCrc32 c3WitnessFile) ∧
     (vppTotalSize c3WitnessFile = c3WitnessFile.length →
       (vppVerify c3WitnessFile = some true ↔
         crc32 (c3WitnessFile.drop vppHeaderSize) = vppVehicleCrc32 c3WitnessFile))) := by
  have hp : vppParse c3WitnessFile = some true := by
    rw [c3WitnessFile]
    exact vppParse_mk _ _ _ rfl rfl
  have hts : vppTotalSize c3WitnessFile = 11934 := by
    rw [c3WitnessFile,
        vppTotalSize_mk [0x9E, 0x2E, 0, 0] [0x07, 0x4C, 0x69, 0x30] [0x41, 0x42] rfl rfl]
    norm_num [byteAt]
  have hlenf : c3WitnessFile.length = 11934 := by
    rw [c3WitnessFile,
        vppLength_mk [0x9E, 0x2E, 0, 0] [0x07, 0x4C, 0x69, 0x30] [0x41, 0x42] rfl rfl]
    norm_num
  have h1 : vppHeaderSize ≤ vppTotalSize c3WitnessFile := by
    rw [hts, vppHeaderSize]
    norm_num
  have h2 : vppTotalSize c3WitnessFile ≤ c3WitnessFile.length := by
    rw [hts, hlenf]
  exact ⟨hp, h1, h2, c3_verify_crc_of_declared_region c3WitnessFile hp h1 h2⟩

/-- Claim C8 counterexample: a Vehicle Package whose parsed header declares
zone_count = 0 and whose CRC matches passes verify, contradicting the
claim that verify must fail on zone_count = 0. -/
theorem c8_counterexample :
    vppParse c8File = some true ∧ vppZoneCount c8File = 0 ∧
    vppVerify c8File = some true := by
  have e : c8File = mkVppHeader [0x9C, 0x2E, 0, 0] [0, 0, 0, 0] ++ [] := by
    rw [List.append_nil]
    rfl
  refine ⟨?_, ?_, ?_⟩
  · rw [e]
    exact vppParse_mk _ _ _ rfl rfl
  · rw [e]
    exact vppZoneCount_mk _ _ _ rfl rfl
  · rw [e, vppVerify,
        vppTotalSize_mk [0x9C, 0x2E, 0, 0] [0, 0, 0, 0] [] rfl rfl,
        vppVehicleCrc32_mk [0x9C, 0x2E, 0, 0] [0, 0, 0, 0] [] rfl rfl,
        vppDrop_mk [0x9C, 0x2E, 0, 0] [0, 0, 0, 0] [] rfl rfl]
    norm_num [byteAt, vppHeaderSize]
    decide

/-- Claim C8, amended: verify never examines zone_count — its outcome
depends only on the total_size field, the vehicle_crc32 field and the
bytes after the header, so a package with zone_count = 0 passes verify
exactly when its CRC check passes. -/
theorem c8_verify_ignores_zone_count (f g : List Nat)
    (hts : vppTotalSize f = vppTotalSize g)
    (hcrc : vppVehicleCrc32 f = vppVehicleCrc32 g)
    (hdrop : f.drop vppHeaderSize = g.drop vppHeaderSize) :
    vppVerify f = vppVerify g := by
  rw [vppVerify, vppVerify, hts, hcrc, hdrop]

theorem c8_verify_ignores_zone_count_witness :
    vppTotalSize c8File = vppTotalSize c8FileZoneCount2 ∧
    vppVehicleCrc32 c8File = vppVehicleCrc32 c8FileZoneCount2 ∧
    c8File.drop vppHeaderSize = c8FileZoneCount2.drop vppHeaderSize ∧
    vppVerify c8File = vppVerify c8FileZoneCount2 := by
  have e : c8File = mkVppHeader [0x9C, 0x2E, 0, 0] [0, 0, 0, 0] ++ [] := by
    rw [List.append_nil]
    rfl
  have hts : vppTotalSize c8File = vppTotalSize c8FileZoneCount2 := by
    rw [e, vppTotalSize_mk [0x9C, 0x2E, 0, 0] [0, 0, 0, 0] [] rfl rfl]
    decide
  have hcrc : vppVehicleCrc32 c8File = vppVehicleCrc32 c8FileZoneCount2 := by
    rw [e, vppVehicleCrc32_mk [0x9C, 0x2E, 0, 0] [0, 0, 0, 0] [] rfl rfl]
    decide
  have hd1 : c8File.drop vppHeaderSize = [] := by
    rw [e]
    exact vppDrop_mk _ _ _ rfl rfl
  have hd2 : c8FileZoneCount2.drop vppHeaderSize = [] := by
    apply List.drop_eq_nil_of_le
    rw [c8FileZoneCount2]
    simp only [List.length_append, List.length_replicate, List.length_cons, List.length_nil,
      vppHeaderSize]
    omega
  have hdrop : c8File.drop vppHeaderSize = c8FileZoneCount2.drop vppHeaderSize := by
    rw [hd1, hd2]
  exact ⟨hts, hcrc, hdrop, c8_verify_ignores_zone_count c8File c8FileZoneCount2 hts hcrc hdrop⟩

/-- An OTA manager mid-download, used as the concrete non-terminal state for
the cancellation claim. -/
def c5Pre : OTAMgrSt :=
  { currentState := .DOWNLOADING, progressState := .DOWNLOADING, errorMessage := "" }

/-- Claim C5 counterexample: cancelling from the non-terminal DOWNLOADING
state does not leave get_state() = ERROR (cancelOTA overwrites the state
with IDLE after reportError), and the recorded message is
"OTA cancelled by user", not "cancelled". -/
theorem c5_counterexample :
    isOTAInProgress c5Pre = true ∧
    getState (cancelOTA c5Pre).2 ≠ OTAState.ERROR ∧
    (cancelOTA c5Pre).2.errorMessage ≠ "cancelled" := by
  decide

/-- Claim C5, amended: if cancel is invoked while the OTA state is
non-terminal, cancelOTA returns true, first reports the error
"OTA cancelled by user" (leaving progress_.state = ERROR with that
message), and then resets current_state_, so afterwards get_state()
returns IDLE. -/
theorem c5_cancel_reports_then_goes_idle (m : OTAMgrSt)
    (h : isOTAInProgress m = true) :
    (cancelOTA m).1 = true ∧
    getState (cancelOTA m).2 = OTAState.IDLE ∧
    (cancelOTA m).2.progressState = OTAState.ERROR ∧
    (cancelOTA m).2.errorMessage = "OTA cancelled by user" := by
  rw [cancelOTA]
  rw [if_neg (by simp [h])]
  exact ⟨rfl, rfl, rfl, rfl⟩

theorem c5_cancel_reports_then_goes_idle_witness :
    isOTAInProgress c5Pre = true ∧
    ((cancelOTA c5Pre).1 = true ∧
     getState (cancelOTA c5Pre).2 = OTAState.IDLE ∧
     (cancelOTA c5Pre).2.progressState = OTAState.ERROR ∧
     (cancelOTA c5Pre).2.errorMessage = "OTA cancelled by user") :=
  ⟨by decide, c5_cancel_reports_then_goes_idle c5Pre (by decide)⟩

/-- An ACTIVE client with an open socket, and an environment in which the
send fails, for the diagnostic I/O-error claim. -/
def c6Client : DoIPClientSt := { state := .ACTIVE, socketOpen := true }

def c6Env : DiagEnv := { sendOk := false, response := none }

/-- Claim C6 counterexample: after a send failure on an ACTIVE client,
sendDiagnosticMessage returns with the socket still open and the state
still ACTIVE (not ERROR), contradicting the claim that the socket is
closed and the state is ERROR. -/
theorem c6_counterexample :
    c6Client.state = DoIPClientState.ACTIVE ∧
    c6Env.sendOk = false ∧
    (sendDiagnosticMessage c6Client c6Env 0x34 [0, 0, 0, 1]).2.state
      ≠ DoIPClientState.ERROR ∧
    (sendDiagnosticMessage c6Client c6Env 0x34 [0, 0, 0, 1]).2.socketOpen = true ∧
    (sendDiagnosticMessage c6Client c6Env 0x34 [0, 0, 0, 1]).1 = [] := by
  decide

/-- Claim C6, amended: sendDiagnosticMessage never mutates the client —
on every path (including send failure and missing response) the state and
socket are returned exactly as they were, and each of those I/O-error
paths yields an empty response; an ACTIVE client therefore stays ACTIVE
with its socket open. -/
theorem c6_diag_io_error_leaves_client_unchanged :
    (∀ (c : DoIPClientSt) (env : DiagEnv) (sid : Nat) (data : List Nat),
      (sendDiagnosticMessage c env sid data).2 = c) ∧
    (∀ (c : DoIPClientSt) (env : DiagEnv) (sid : Nat) (data : List Nat),
      env.sendOk = false ∨ env.response = none →
      sendDiagnosticMessage c env sid data = ([], c)) := by
  constructor
  · intro c env sid data
    rw [sendDiagnosticMessage]
    repeat' split
    all_goals rfl
  · intro c env sid data h
    rcases h with h | h
    · rw [sendDiagnosticMessage]
      simp [h]
    · rw [sendDiagnosticMessage, h]
      simp

theorem c6_diag_io_error_leaves_client_unchanged_witness :
    (c6Env.sendOk = false ∨ c6Env.response = none) ∧
    sendDiagnosticMessage c6Client c6Env 0x34 [0, 0, 0, 1] = ([], c6Client) :=
  ⟨Or.inl rfl,
   c6_diag_io_error_leaves_client_unchanged.2 c6Client c6Env 0x34 [0, 0, 0, 1] (Or.inl rfl)⟩

/-- A routing-activation response of payload type 0x0006 with response code
0x05 (any code other than 0x10 is a failure). -/
def c7RoutingDeniedResponse : List Nat :=
  [0x02, 0xFD, 0x00, 0x06, 0, 0, 0, 9, 0x01, 0x00, 0x02, 0x00, 0x05, 0, 0, 0, 0]

/-- An environment in which socket creation, address parsing and the TCP
connect all succeed but routing activation is denied. -/
def c7Env : ConnectEnv :=
  { socketCreateOk := true, addrValid := true, tcpConnectOk := true,
    routingSendOk := true, routingResponse := some c7RoutingDeniedResponse }

def c7Client : DoIPClientSt := { state := .IDLE, socketOpen := false }

/-- Claim C7 counterexample: with the TCP connection established and
routing activation refused (code 0x05), connect() returns with the client
in state IDLE, not ERROR — the routing-failure path calls disconnect(). -/
theorem c7_counterexample :
    activateRouting c7Env = false ∧
    (connect c7Client c7Env).2.state ≠ DoIPClientState.ERROR ∧
    (connect c7Client c7Env).2.state = DoIPClientState.IDLE := by
  decide

/-- Claim C7, amended: whenever connect() establishes TCP but routing
activation fails (for any reason activateRouting reports), connect returns
false with the client disconnected: state IDLE and the socket closed. -/
theorem c7_routing_failure_yields_idle (c : DoIPClientSt) (env : ConnectEnv)
    (hA : c.state ≠ DoIPClientState.ACTIVE)
    (h1 : env.socketCreateOk = true) (h2 : env.addrValid = true)
    (h3 : env.tcpConnectOk = true) (hr : activateRouting env = false) :
    connect c env = (false, { state := .IDLE, socketOpen := false }) := by
  rw [connect, if_neg hA]
  simp [h1, h2, h3, hr, disconnect]

theorem c7_routing_failure_yields_idle_witness :
    c7Client.state ≠ DoIPClientState.ACTIVE ∧
    c7Env.socketCreateOk = true ∧ c7Env.addrValid = true ∧
    c7Env.tcpConnectOk = true ∧ activateRouting c7Env = false ∧
    connect c7Client c7Env = (false, { state := .IDLE, socketOpen := false }) :=
  ⟨by decide, rfl, rfl, rfl, by decide,
   c7_routing_failure_yields_idle c7Client c7Env (by decide) rfl rfl rfl (by decide)⟩

end VMG
